import Mathlib

/-!
Verification of `scripts/preprocess_html.py`, a one-shot preprocessing script
that rewrites notebook cell sources: bare image links become MyST figure
blocks, and HTML-comment-delimited sections become MyST admonition blocks.

The shallow embedding below models cell sources as `List String` (each line
keeps its trailing newline, as in the stored notebook format).  The three
regular expressions used by the script are translated into equivalent
recursive matching functions that reproduce Python's `re.match` semantics
(anchored at the start of the string only, `.` never matches a newline,
greedy quantifiers prefer the longest alternative, lazy quantifiers the
shortest, with backtracking).  Fallible operations (`lines[i]` indexing,
`sys.exit`) are modelled with an explicit result type.
-/

/-- Outcome of a piece of the script.  `ok` is a normal return; `exitFail msg`
models `print(msg)` followed by `sys.exit(1)` (exit status 1); `indexError`
models an uncaught `IndexError` from an out-of-range list access. -/
inductive PyResult (α : Type) where
  | ok : α → PyResult α
  | exitFail : String → PyResult α
  | indexError : PyResult α
deriving DecidableEq, Repr

/-! ### The image regex `!\[(.*)\]\((res/(.*?)\.(.*?))\)`

`re.match` anchors at the start.  Group 1 `(.*)` is greedy (longest caption
such that the rest of the pattern still matches), groups 3 and 4 `(.*?)` are
lazy (shortest name up to a literal `.`, shortest extension up to a literal
`)`), and `.` does not match `'\n'`. -/

/-- Match `(.*?)c` lazily at the head of `l`: split at the first occurrence of
the literal `c`, with the consumed part free of `'\n'`. -/
def lazyTo (c : Char) : List Char → Option (List Char × List Char)
  | [] => none
  | x :: xs =>
    if x = c then some ([], xs)
    else if x = '\n' then none
    else (lazyTo c xs).map (fun p => (x :: p.1, p.2))

/-- Match `(.*?)\.(.*?)\)` at the head of `l`, returning (group 3, group 4):
the lazy name group stops at the first `.` from which the lazy extension
group can reach a `)`; on failure it extends past that `.` and retries. -/
def imgNameExt : List Char → Option (List Char × List Char)
  | [] => none
  | x :: xs =>
    if x = '.' then
      match lazyTo ')' xs with
      | some p => some ([], p.1)
      | none => (imgNameExt xs).map (fun q => (x :: q.1, q.2))
    else if x = '\n' then none
    else (imgNameExt xs).map (fun q => (x :: q.1, q.2))

/-- Match `(.*)\]\(res/(.*?)\.(.*?)\)` at the head of `l`, returning
(caption, name, extension).  The caption group is greedy: at every position
the matcher first tries to extend the caption (covering all longer
candidates) and only on failure closes it at a `](res/` split point. -/
def imgCap : List Char → Option (List Char × List Char × List Char)
  | [] => none
  | x :: xs =>
    match (if x = '\n' then none
           else (imgCap xs).map (fun q => (x :: q.1, q.2))) with
    | some r => some r
    | none =>
      if x = ']' ∧ xs.take 5 = ['(', 'r', 'e', 's', '/'] then
        (imgNameExt (xs.drop 5)).map (fun q => (([] : List Char), q.1, q.2))
      else none

/-- `re.match(r"!\[(.*)\]\((res/(.*?)\.(.*?))\)", s)`: returns
(caption, name, extension) on a match.  Group 2 is always
`"res/" ++ name ++ "." ++ ext` by the shape of the pattern. -/
def imageMatch (s : String) : Option (String × String × String) :=
  if s.data.take 2 = ['!', '['] then
    (imgCap (s.data.drop 2)).map (fun q => (q.1.asString, q.2.1.asString, q.2.2.asString))
  else none

/-! ### The begin regex `<!-- begin (.+?) (style=(\w+) )?-->` -/

/-- Python `\w` on the script's ASCII inputs: letters, digits, underscore. -/
def isWordChar (c : Char) : Bool := c.isAlphanum || c = '_'

/-- Maximal `\w*` prefix and the remainder. -/
def takeWord : List Char → List Char × List Char
  | [] => ([], [])
  | x :: xs =>
    if isWordChar x then
      let p := takeWord xs
      (x :: p.1, p.2)
    else ([], x :: xs)

/-- Match `(style=(\w+) )?-->` at the head of `l`.  The optional group is
greedy: the `style=` branch is tried first (a maximal nonempty word, then a
space, then `-->`), and only if it fails does the empty branch require `-->`
directly.  Returns `none` on failure, `some g3` with the optional group 3. -/
def beginTail (l : List Char) : Option (Option (List Char)) :=
  let styleBranch : Option (List Char) :=
    if l.take 6 = ['s', 't', 'y', 'l', 'e', '='] then
      let p := takeWord (l.drop 6)
      if p.1 ≠ [] ∧ p.2.take 4 = [' ', '-', '-', '>'] then some p.1 else none
    else none
  match styleBranch with
  | some w => some (some w)
  | none => if l.take 3 = ['-', '-', '>'] then some (none : Option (List Char)) else none

/-- Match `(.+?) (style=(\w+) )?-->` at the head of `l`, returning
(group 1, group 3).  Group 1 is lazy and nonempty: at every position the
matcher first tries to close the name (shortest candidate) when a space
followed by a matching tail comes next, and otherwise extends it. -/
def beginName : List Char → Option (List Char × Option (List Char))
  | [] => none
  | x :: xs =>
    if x = '\n' then none
    else
      match (match xs with
             | ' ' :: r => (beginTail r).map (fun st => (([] : List Char), st))
             | _ => none) with
      | some p => some (x :: p.1, p.2)
      | none => (beginName xs).map (fun p => (x :: p.1, p.2))

/-- `re.match(r"<!-- begin (.+?) (style=(\w+) )?-->", s)`: returns
(admonition header, optional style) on a match. -/
def beginMatch (s : String) : Option (String × Option String) :=
  if s.data.take 11 = "<!-- begin ".data then
    (beginName (s.data.drop 11)).map (fun p => (p.1.asString, p.2.map List.asString))
  else none

/-! ### The blockquote regex `^ >( |\n)(.*)$` -/

/-- Greedy `(.*)`: the maximal newline-free prefix and the remainder. -/
def noNLSplit : List Char → List Char × List Char
  | [] => ([], [])
  | x :: xs =>
    if x = '\n' then ([], x :: xs)
    else
      let p := noNLSplit xs
      (x :: p.1, p.2)

/-- `re.match(r"^ >( |\n)(.*)$", s)`: returns group 2 on a match.  Python's
`$` matches at the end of the string or just before a final newline. -/
def bqMatch (s : String) : Option String :=
  if s.data.take 2 = [' ', '>'] then
    match s.data.drop 2 with
    | [] => none
    | c :: rest =>
      if c = ' ' ∨ c = '\n' then
        let p := noNLSplit rest
        if p.2 = [] ∨ p.2 = ['\n'] then some p.1.asString else none
      else none
  else none

/-! ### Admonition helpers (lines 23-28 and 75-99 of the script) -/

/-- The module-level `CUSTOM_ADMONITION_STYLES` dictionary. -/
def CUSTOM_ADMONITION_STYLES : List (String × String) :=
  [("example", "tip"), ("rule", "tip"), ("exercise", "hint"), ("remark", "tip")]

/-- `CUSTOM_ADMONITION_STYLES.get(name, name)`. -/
def stylesGet (name : String) : String :=
  (CUSTOM_ADMONITION_STYLES.lookup name).getD name

/-- Python `str.capitalize()` on the script's ASCII inputs: first character
uppercased, all remaining characters lowercased. -/
def pyCapitalize (s : String) : String :=
  match s.data with
  | [] => ""
  | c :: cs => String.mk (c.toUpper :: cs.map Char.toLower)

/-- Resolved style (lines 78-81): an explicit `style=` group wins, otherwise
the dictionary lookup with the header itself as default. -/
def admStyle (adm_header : String) (g3 : Option String) : String :=
  match g3 with
  | some s => s
  | none => stylesGet adm_header

/-- Resolved display label (line 82):
`adm_header.capitalize() if " " not in adm_header else adm_header`. -/
def admText (adm_header : String) : String :=
  if adm_header.data.contains ' ' then adm_header else pyCapitalize adm_header

/-- `end_match` (line 83). -/
def endMatchStr : String := "<!-- end -->\n"

/-- Python `list.index`: index of the first occurrence, if any. -/
def firstIdxOf (x : String) : List String → Option Nat
  | [] => none
  | y :: ys => if y = x then some 0 else (firstIdxOf x ys).map (fun n => n + 1)

/-- The end-line search (lines 84-92, success cases): `lines.index(end_match)`
and, when that raises `ValueError`, the final line compared against the end
text without its newline. -/
def endIndex (lines : List String) : Option Nat :=
  match firstIdxOf endMatchStr lines with
  | some k => some k
  | none =>
    match lines.getLast? with
    | some last => if last = "<!-- end -->" then some (lines.length - 1) else none
    | none => none

/-- The blockquote unwrapping (lines 93-99): if every intermediate line
matches the blockquote regex, each is replaced by its group 2 with a newline
re-appended; otherwise the intermediate lines are used verbatim. -/
def unwrapBlockquote (inter : List String) : List String :=
  if inter.all (fun l => (bqMatch l).isSome) then
    inter.map (fun l => ((bqMatch l).getD "") ++ "\n")
  else inter

/-! ### The two converters -/

/-- The 6-line figure block built at lines 44-51 for caption `c`, name `n`,
extension `e` (the emitted path is `"../" ++ group2 = "../res/n.e"`). -/
def figBlock (c n e : String) : List String :=
  ["```\x7bfigure\x7d ../res/" ++ n ++ "." ++ e ++ "\n",
   "---\n",
   "name: " ++ n ++ "\n",
   "---\n",
   c ++ "\n",
   "```\n"]

/-- `image_to_figure(lines, i)` (lines 30-55).  `lines[i]` raises
`IndexError` when `i` is out of range; on a match the line is replaced by the
6-line figure block and the cursor advanced by its length. -/
def image_to_figure (lines : List String) (i : Nat) : PyResult (List String × Nat) :=
  if i < lines.length then
    match imageMatch (lines.getD i "") with
    | none => .ok (lines, i)
    | some (c, n, e) =>
      .ok (lines.take i ++ figBlock c n e ++ lines.drop (i + 1), i + 6)
  else .indexError

/-- The opening admonition fence built at line 102 (note the space before the
newline, from `f"```{{admonition}} {text} \n"`). -/
def admHeaderLine (text : String) : String :=
  "```\x7badmonition\x7d " ++ text ++ " \n"

/-- The `:class:` line built at line 102. -/
def admClassLine (style : String) : String :=
  ":class: " ++ style ++ "\n"

/-- The error message printed at line 91 before `sys.exit(1)`. -/
def admErrMsg (text : String) (cellid : Nat) (filename : String) : String :=
  text ++ " has no closing 'end' in cell " ++ toString cellid ++ " in file " ++ filename

/-- `create_admonition(lines, i)` (lines 57-110).  `filename` and `cellid`
are the module-level variables read by the error message.  On a begin-line
match the span from the begin line through the end line is replaced by the
admonition block, the content being `lines[i+3:matching_line]` possibly
blockquote-unwrapped, and the cursor is set to the old index of the end line.
If no end line exists the script prints the message and calls `sys.exit(1)`
(with `lines[-1]` on an empty list raising `IndexError`, unreachable here). -/
def create_admonition (filename : String) (cellid : Nat) (lines : List String) (i : Nat) :
    PyResult (List String × Nat) :=
  if i < lines.length then
    match beginMatch (lines.getD i "") with
    | none => .ok (lines, i)
    | some (adm_header, g3) =>
      let style := admStyle adm_header g3
      let text := admText adm_header
      match endIndex lines with
      | some matching_line =>
        .ok (lines.take i ++
             [admHeaderLine text, admClassLine style] ++
             unwrapBlockquote ((lines.drop (i + 3)).take (matching_line - (i + 3))) ++
             ["```\n"] ++
             lines.drop (matching_line + 1),
             matching_line)
      | none =>
        if lines.isEmpty then .indexError
        else .exitFail (admErrMsg text cellid filename)
  else .indexError

/-! ### The driver (lines 112-134)

The per-cell while loop, the per-document cell loop, and the top-level loop
over table-of-contents entries, with explicit fuel for the while loop (the
source loop can diverge on pathological inputs; `none` means the fuel ran
out before the loop finished). -/

/-- The while loop of lines 124-129: at each iteration with `i` in bounds,
apply `image_to_figure` then `create_admonition`, then increment the cursor. -/
def processLines (fn : String) (cid : Nat) : Nat → List String → Nat → Option (PyResult (List String))
  | 0, _, _ => none
  | fuel + 1, lines, i =>
    if i < lines.length then
      match image_to_figure lines i with
      | .exitFail m => some (.exitFail m)
      | .indexError => some .indexError
      | .ok (lines1, i1) =>
        match create_admonition fn cid lines1 i1 with
        | .exitFail m => some (.exitFail m)
        | .indexError => some .indexError
        | .ok (lines2, i2) => processLines fn cid fuel lines2 (i2 + 1)
    else some (.ok lines)

/-- The cell loop of lines 122-131: cells are processed in order with
`cellid` enumerating them; a failure aborts the whole document. -/
def processCells (fn : String) (fuel : Nat) : Nat → List (List String) → Option (PyResult (List (List String)))
  | _, [] => some (.ok [])
  | cid, c :: cs =>
    match processLines fn cid fuel c 0 with
    | none => none
    | some (.exitFail m) => some (.exitFail m)
    | some .indexError => some .indexError
    | some (.ok c2) =>
      match processCells fn fuel (cid + 1) cs with
      | none => none
      | some (.exitFail m) => some (.exitFail m)
      | some .indexError => some .indexError
      | some (.ok cs2) => some (.ok (c2 :: cs2))

/-- The loop over table-of-contents entries (lines 112-134).  An entry
without a `file` key (`none`) is skipped (`KeyError` → `continue`).  The
result is (printed messages, exit status, documents written); a document is
written only after all its cells processed successfully, and `exitFail`
terminates the run with status 1 while an uncaught `IndexError` likewise
aborts with a nonzero status and no further writes. -/
def runEntries (docs : String → List (List String)) (fuel : Nat) :
    List (Option String) → List (String × List (List String)) →
    Option (List String × Nat × List (String × List (List String)))
  | [], acc => some ([], 0, acc.reverse)
  | none :: es, acc => runEntries docs fuel es acc
  | some fname :: es, acc =>
    match processCells fname fuel 0 (docs fname) with
    | none => none
    | some (.exitFail m) => some ([m], 1, acc.reverse)
    | some .indexError => some ([], 1, acc.reverse)
    | some (.ok cells2) => runEntries docs fuel es ((fname, cells2) :: acc)

/-- The whole script (lines 16-134).  `toc = none` models a missing
`book/_toc.yml`: the script prints "Could not open ToC." and calls
`sys.exit()` with no argument, which terminates with exit status 0. -/
def runScript (toc : Option (List (Option String))) (docs : String → List (List String))
    (fuel : Nat) : Option (List String × Nat × List (String × List (List String))) :=
  match toc with
  | none => some (["Could not open ToC."], 0, [])
  | some entries => runEntries docs fuel entries []

/-! ### Helper lemmas -/

/-- `list.index` returns `none` exactly when the element is absent. -/
lemma firstIdxOf_eq_none (x : String) (l : List String) (h : x ∉ l) :
    firstIdxOf x l = none := by
  induction l with
  | nil => rfl
  | cons y ys ih =>
    simp only [List.mem_cons, not_or] at h
    unfold firstIdxOf
    rw [if_neg (fun he => h.1 he.symm), ih h.2]
    rfl

/-- An in-range `getD` is a member of the list. -/
lemma getD_mem_of_lt (l : List String) (i : Nat) (h : i < l.length) :
    l.getD i "" ∈ l := by
  induction l generalizing i with
  | nil => simp at h
  | cons a t ih =>
    cases i with
    | zero => simp [List.getD]
    | succ n =>
      exact List.mem_cons_of_mem a (ih n (by simpa using h))

/-- A line matching the begin regex starts with `<` and thus cannot match the
image regex, which requires a leading `![`. -/
lemma imageMatch_eq_none_of_beginMatch (s : String) (p : String × Option String)
    (hb : beginMatch s = some p) : imageMatch s = none := by
  have hpre : s.data.take 11 = "<!-- begin ".data := by
    by_contra hcon
    simp only [beginMatch, if_neg hcon] at hb
    exact Option.noConfusion hb
  have h2 : s.data.take 2 = ['<', '!'] := by
    have htt : (s.data.take 11).take 2 = s.data.take 2 := by
      rw [List.take_take]
      norm_num
    rw [← htt, hpre]
    rfl
  unfold imageMatch
  rw [if_neg (by rw [h2]; decide)]

/-- Unfolding of `create_admonition` when the begin line matches and an end
line is found: the span `[i, e]` is replaced and the cursor becomes `e`. -/
lemma create_admonition_found (fn : String) (cid : Nat) (lines : List String) (i e : Nat)
    (name : String) (st : Option String)
    (hlt : i < lines.length)
    (hb : beginMatch (lines.getD i "") = some (name, st))
    (he : endIndex lines = some e) :
    create_admonition fn cid lines i =
      .ok (lines.take i ++
           [admHeaderLine (admText name), admClassLine (admStyle name st)] ++
           unwrapBlockquote ((lines.drop (i + 3)).take (e - (i + 3))) ++
           ["```\n"] ++ lines.drop (e + 1), e) := by
  unfold create_admonition
  rw [if_pos hlt, hb, he]

/-! ### Claim theorems -/

/-- Claim C1: whenever the line at cursor `i` matches the begin-delimiter
pattern and the end-delimiter search locates index `e`, `create_admonition`
replaces the span from line `i` through line `e` inclusive with the opening
admonition fence, the `:class:` line, the content lines obtained from exactly
the slice `lines[i+3:e]` (possibly blockquote-unwrapped), and a closing
fence, and returns cursor `e`, the index the end line had in the original
pre-replacement sequence. -/
theorem c1_admonition_span_replacement (fn : String) (cid : Nat) (lines : List String)
    (i e : Nat) (name : String) (st : Option String)
    (hlt : i < lines.length)
    (hb : beginMatch (lines.getD i "") = some (name, st))
    (he : endIndex lines = some e) :
    create_admonition fn cid lines i =
      .ok (lines.take i ++
           [admHeaderLine (admText name), admClassLine (admStyle name st)] ++
           unwrapBlockquote ((lines.drop (i + 3)).take (e - (i + 3))) ++
           ["```\n"] ++ lines.drop (e + 1), e) :=
  create_admonition_found fn cid lines i e name st hlt hb he

/-- Witness for C1 at a concrete admonition block. -/
theorem c1_admonition_span_replacement_witness :
    (0 : Nat) < (["<!-- begin example -->\n", "p\n", "q\n", "body\n", "<!-- end -->\n"] : List String).length ∧
    beginMatch ((["<!-- begin example -->\n", "p\n", "q\n", "body\n", "<!-- end -->\n"] : List String).getD 0 "") = some ("example", none) ∧
    endIndex ["<!-- begin example -->\n", "p\n", "q\n", "body\n", "<!-- end -->\n"] = some 4 ∧
    create_admonition "f" 0 ["<!-- begin example -->\n", "p\n", "q\n", "body\n", "<!-- end -->\n"] 0 =
      .ok (["```\x7badmonition\x7d Example \n", ":class: tip\n", "body\n", "```\n"], 4) :=
  ⟨by decide, by decide, by decide,
   c1_admonition_span_replacement "f" 0 _ 0 4 "example" none (by decide) (by decide) (by decide)⟩

/-- Claim C2: whenever the line at cursor `i` matches the image pattern,
`image_to_figure` replaces exactly that one line with the 6-line figure
block (opening `figure` fence with path `../res/N.E`, `---`, `name: N`,
`---`, the caption, and a closing fence) and returns cursor `i + 6`. -/
theorem c2_image_line_replacement (lines : List String) (i : Nat) (c n e : String)
    (hlt : i < lines.length)
    (hm : imageMatch (lines.getD i "") = some (c, n, e)) :
    image_to_figure lines i =
      .ok (lines.take i ++
           ["```\x7bfigure\x7d ../res/" ++ n ++ "." ++ e ++ "\n",
            "---\n",
            "name: " ++ n ++ "\n",
            "---\n",
            c ++ "\n",
            "```\n"] ++
           lines.drop (i + 1), i + 6) := by
  unfold image_to_figure
  rw [if_pos hlt, hm]
  rfl

/-- Witness for C2 at a concrete image line. -/
theorem c2_image_line_replacement_witness :
    (0 : Nat) < (["![cap](res/a.b)\n", "x\n"] : List String).length ∧
    imageMatch ((["![cap](res/a.b)\n", "x\n"] : List String).getD 0 "") = some ("cap", "a", "b") ∧
    image_to_figure ["![cap](res/a.b)\n", "x\n"] 0 =
      .ok (["```\x7bfigure\x7d ../res/a.b\n", "---\n", "name: a\n", "---\n", "cap\n", "```\n", "x\n"], 6) :=
  ⟨by decide, by decide,
   c2_image_line_replacement _ 0 "cap" "a" "b" (by decide) (by decide)⟩

/-- Claim C8: when the line at cursor `i` matches neither the image pattern
nor the begin-delimiter pattern, both converters return the sequence and the
cursor completely unchanged. -/
theorem c8_no_match_is_identity (fn : String) (cid : Nat) (lines : List String) (i : Nat)
    (hlt : i < lines.length)
    (him : imageMatch (lines.getD i "") = none)
    (hbm : beginMatch (lines.getD i "") = none) :
    image_to_figure lines i = .ok (lines, i) ∧
    create_admonition fn cid lines i = .ok (lines, i) := by
  constructor
  · unfold image_to_figure
    rw [if_pos hlt, him]
  · unfold create_admonition
    rw [if_pos hlt, hbm]

/-- Witness for C8 at a concrete non-matching line. -/
theorem c8_no_match_is_identity_witness :
    (0 : Nat) < (["plain text\n"] : List String).length ∧
    imageMatch ((["plain text\n"] : List String).getD 0 "") = none ∧
    beginMatch ((["plain text\n"] : List String).getD 0 "") = none ∧
    (image_to_figure ["plain text\n"] 0 = .ok (["plain text\n"], 0) ∧
     create_admonition "f" 0 ["plain text\n"] 0 = .ok (["plain text\n"], 0)) :=
  ⟨by decide, by decide, by decide,
   c8_no_match_is_identity "f" 0 ["plain text\n"] 0 (by decide) (by decide) (by decide)⟩

/-- `unwrapBlockquote` strips when every line matches the blockquote regex. -/
lemma unwrapBlockquote_all (inter : List String)
    (h : ∀ l ∈ inter, (bqMatch l).isSome = true) :
    unwrapBlockquote inter = inter.map (fun l => ((bqMatch l).getD "") ++ "\n") := by
  unfold unwrapBlockquote
  rw [if_pos (List.all_eq_true.mpr h)]

/-- `unwrapBlockquote` is the identity when some line fails the regex. -/
lemma unwrapBlockquote_not_all (inter : List String) (l0 : String)
    (hmem : l0 ∈ inter) (hnone : bqMatch l0 = none) :
    unwrapBlockquote inter = inter := by
  unfold unwrapBlockquote
  rw [if_neg]
  intro hall
  have hl0 := List.all_eq_true.mp hall l0 hmem
  rw [hnone] at hl0
  exact Bool.noConfusion hl0

/-- Claim C4: for an admonition with begin line at `i` and end line at `e`,
if every extracted line `lines[i+3:e]` matches the blockquote prefix pattern,
every output content line is its group 2 with a trailing newline re-appended;
if even one extracted line does not match, every extracted line is used
verbatim with no stripping. -/
theorem c4_blockquote_unwrapping (fn : String) (cid : Nat) (lines : List String)
    (i e : Nat) (name : String) (st : Option String)
    (hlt : i < lines.length)
    (hb : beginMatch (lines.getD i "") = some (name, st))
    (he : endIndex lines = some e) :
    ((∀ l ∈ (lines.drop (i + 3)).take (e - (i + 3)), (bqMatch l).isSome = true) →
      create_admonition fn cid lines i =
        .ok (lines.take i ++
             [admHeaderLine (admText name), admClassLine (admStyle name st)] ++
             ((lines.drop (i + 3)).take (e - (i + 3))).map
               (fun l => ((bqMatch l).getD "") ++ "\n") ++
             ["```\n"] ++ lines.drop (e + 1), e)) ∧
    (∀ l0 ∈ (lines.drop (i + 3)).take (e - (i + 3)), bqMatch l0 = none →
      create_admonition fn cid lines i =
        .ok (lines.take i ++
             [admHeaderLine (admText name), admClassLine (admStyle name st)] ++
             (lines.drop (i + 3)).take (e - (i + 3)) ++
             ["```\n"] ++ lines.drop (e + 1), e)) := by
  constructor
  · intro hall
    rw [create_admonition_found fn cid lines i e name st hlt hb he,
        unwrapBlockquote_all _ hall]
  · intro l0 hmem hnone
    rw [create_admonition_found fn cid lines i e name st hlt hb he,
        unwrapBlockquote_not_all _ l0 hmem hnone]

/-- Witness for C4: one fully blockquoted admonition gets stripped, one with
a single bare line is kept verbatim. -/
theorem c4_blockquote_unwrapping_witness :
    create_admonition "f" 0
      ["<!-- begin example -->\n", "a\n", "b\n", " > one\n", " > two\n", "<!-- end -->\n"] 0 =
      .ok (["```\x7badmonition\x7d Example \n", ":class: tip\n", "one\n", "two\n", "```\n"], 5) ∧
    create_admonition "f" 0
      ["<!-- begin example -->\n", "a\n", "b\n", " > one\n", "raw\n", "<!-- end -->\n"] 0 =
      .ok (["```\x7badmonition\x7d Example \n", ":class: tip\n", " > one\n", "raw\n", "```\n"], 5) :=
  ⟨(c4_blockquote_unwrapping "f" 0
      ["<!-- begin example -->\n", "a\n", "b\n", " > one\n", " > two\n", "<!-- end -->\n"]
      0 5 "example" none (by decide) (by decide) (by decide)).1 (by decide),
   (c4_blockquote_unwrapping "f" 0
      ["<!-- begin example -->\n", "a\n", "b\n", " > one\n", "raw\n", "<!-- end -->\n"]
      0 5 "example" none (by decide) (by decide) (by decide)).2 "raw\n" (by decide) (by decide)⟩

/-- Claim C5: the emitted label is the header verbatim when it contains a
space and the header capitalized otherwise; the emitted style is the explicit
`style=` group when present, otherwise the mapped style (`example`→tip,
`rule`→tip, `exercise`→hint, `remark`→tip), otherwise the header itself.  In
particular `<!-- begin example -->` resolves to style `tip`, label `Example`. -/
theorem c5_label_and_style_resolution :
    (∀ name : String, name.data.contains ' ' = true → admText name = name) ∧
    (∀ name : String, name.data.contains ' ' = false → admText name = pyCapitalize name) ∧
    (∀ (name s : String), admStyle name (some s) = s) ∧
    (∀ name : String, CUSTOM_ADMONITION_STYLES.lookup name = none → admStyle name none = name) ∧
    (admStyle "example" none = "tip" ∧ admStyle "rule" none = "tip" ∧
     admStyle "exercise" none = "hint" ∧ admStyle "remark" none = "tip") ∧
    (beginMatch "<!-- begin example -->\n" = some ("example", none) ∧
     admText "example" = "Example" ∧
     create_admonition "f" 0 ["<!-- begin example -->\n", "a\n", "b\n", "c\n", "<!-- end -->\n"] 0 =
       .ok (["```\x7badmonition\x7d Example \n", ":class: tip\n", "c\n", "```\n"], 4)) := by
  refine ⟨?_, ?_, ?_, ?_, by decide, by decide⟩
  · intro name h
    unfold admText
    rw [if_pos h]
  · intro name h
    unfold admText
    rw [if_neg (by rw [h]; exact Bool.false_ne_true)]
  · intro name s
    rfl
  · intro name h
    unfold admStyle stylesGet
    rw [h]
    rfl

/-- Witness for C5 at concrete headers. -/
theorem c5_label_and_style_resolution_witness :
    admText "pro tip" = "pro tip" ∧ admText "note" = pyCapitalize "note" ∧
    admStyle "note" (some "warning") = "warning" ∧ admStyle "custom" none = "custom" :=
  ⟨c5_label_and_style_resolution.1 "pro tip" (by decide),
   c5_label_and_style_resolution.2.1 "note" (by decide),
   c5_label_and_style_resolution.2.2.1 "note" "warning",
   c5_label_and_style_resolution.2.2.2.1 "custom" (by decide)⟩

/-- Claim C3: with a begin-delimiter line at the cursor, no line equal to
`<!-- end -->\n` anywhere in the sequence, and a final line different from
`<!-- end -->`, `create_admonition` prints a message naming the admonition
label, the cell and the file and exits with failure status 1 (modelled by
`exitFail`), and the driver loop propagates this failure instead of
producing an output sequence for the document. -/
theorem c3_unterminated_block_fails (fn : String) (cid : Nat) (lines : List String) (i : Nat)
    (name : String) (st : Option String)
    (hlt : i < lines.length)
    (hb : beginMatch (lines.getD i "") = some (name, st))
    (hnomem : endMatchStr ∉ lines)
    (hlast : lines.getLast? ≠ some "<!-- end -->") :
    create_admonition fn cid lines i =
      .exitFail (admText name ++ " has no closing 'end' in cell " ++ toString cid ++
                 " in file " ++ fn) ∧
    ∀ fuel : Nat, processLines fn cid (fuel + 1) lines i =
      some (.exitFail (admText name ++ " has no closing 'end' in cell " ++ toString cid ++
                       " in file " ++ fn)) := by
  have hend : endIndex lines = none := by
    unfold endIndex
    rw [firstIdxOf_eq_none _ _ hnomem]
    cases hgl : lines.getLast? with
    | none => rfl
    | some last =>
      show (if last = "<!-- end -->" then some (lines.length - 1) else none) = none
      rw [if_neg (fun heq : last = "<!-- end -->" => hlast (by rw [hgl, heq]))]
  have hne : lines.isEmpty = false := by
    cases lines with
    | nil => simp at hlt
    | cons a t => rfl
  have hcreate : create_admonition fn cid lines i =
      .exitFail (admText name ++ " has no closing 'end' in cell " ++ toString cid ++
                 " in file " ++ fn) := by
    unfold create_admonition
    rw [if_pos hlt, hb, hend]
    show (if lines.isEmpty = true then PyResult.indexError
          else PyResult.exitFail (admErrMsg (admText name) cid fn)) =
      PyResult.exitFail (admText name ++ " has no closing 'end' in cell " ++ toString cid ++
                         " in file " ++ fn)
    rw [hne]
    rfl
  refine ⟨hcreate, fun fuel => ?_⟩
  have himg : image_to_figure lines i = .ok (lines, i) := by
    unfold image_to_figure
    rw [if_pos hlt, imageMatch_eq_none_of_beginMatch _ _ hb]
  unfold processLines
  rw [if_pos hlt]
  simp only [himg, hcreate]

/-- Witness for C3 at a concrete unterminated block. -/
theorem c3_unterminated_block_fails_witness :
    create_admonition "f" 0 ["<!-- begin example -->\n", "x\n"] 0 =
      .exitFail "Example has no closing 'end' in cell 0 in file f" ∧
    processLines "f" 0 1 ["<!-- begin example -->\n", "x\n"] 0 =
      some (.exitFail "Example has no closing 'end' in cell 0 in file f") :=
  ⟨(c3_unterminated_block_fails "f" 0 ["<!-- begin example -->\n", "x\n"] 0 "example" none
      (by decide) (by decide) (by decide) (by decide)).1,
   (c3_unterminated_block_fails "f" 0 ["<!-- begin example -->\n", "x\n"] 0 "example" none
      (by decide) (by decide) (by decide) (by decide)).2 0⟩

/-- Claim C6 is false as stated: when the table-of-contents file cannot be
opened, the script executes `print("Could not open ToC."); sys.exit()` and
`sys.exit()` with no argument terminates with exit status 0 (success), not a
failure status.  The message is printed and no document is processed, but the
exit status is 0, refuting "exits with a failure status". -/
theorem c6_missing_toc_counterexample :
    runScript none (fun _ => []) 1 = some (["Could not open ToC."], 0, []) ∧
    ¬ (∀ r : List String × Nat × List (String × List (List String)),
        runScript none (fun _ => []) 1 = some r → r.2.1 ≠ 0) :=
  ⟨rfl, fun h => h (["Could not open ToC."], 0, []) rfl rfl⟩

/-- Claim C6 amended: if the table-of-contents file cannot be opened, the
script prints "Could not open ToC." and exits with SUCCESS status 0
(`sys.exit()` with no argument), having processed and written no documents. -/
theorem c6_missing_toc_prints_and_exits_zero (docs : String → List (List String)) (fuel : Nat) :
    runScript none docs fuel = some (["Could not open ToC."], 0, []) := rfl

/-- Claim C9: the end delimiter is located by `lines.index`, i.e. as the
first line of the entire sequence equal to `<!-- end -->\n`, even when that
occurrence lies before the cursor.  Here the first end line sits at index
`e = 0` while the begin line is at `i = 3`: the replacement keeps the prefix
`lines[:3]` (which still contains the end line and the lines after it) and
appends `lines[1:]`, so the lines at indices 1 and 2 (`"u\n"`, `"v\n"`)
appear twice in the output, and the returned cursor is the stale index 0. -/
theorem c9_end_before_cursor_duplicates :
    endIndex ["<!-- end -->\n", "u\n", "v\n", "<!-- begin example -->\n"] = some 0 ∧
    create_admonition "f" 0 ["<!-- end -->\n", "u\n", "v\n", "<!-- begin example -->\n"] 3 =
      .ok (["<!-- end -->\n", "u\n", "v\n", "```\x7badmonition\x7d Example \n",
            ":class: tip\n", "```\n", "u\n", "v\n", "<!-- begin example -->\n"], 0) ∧
    (["<!-- end -->\n", "u\n", "v\n", "```\x7badmonition\x7d Example \n",
      ":class: tip\n", "```\n", "u\n", "v\n", "<!-- begin example -->\n"] : List String).count "u\n" = 2 ∧
    (["<!-- end -->\n", "u\n", "v\n", "```\x7badmonition\x7d Example \n",
      ":class: tip\n", "```\n", "u\n", "v\n", "<!-- begin example -->\n"] : List String).count "v\n" = 2 := by
  decide

/-- One step of the driver loop at a line matching neither pattern leaves the
sequence unchanged and advances the cursor by one; iterating, a sequence none
of whose lines matches either pattern passes through the loop unchanged. -/
lemma processLines_no_match_fixpoint (fn : String) (cid : Nat) (lines : List String)
    (hnm : ∀ l ∈ lines, imageMatch l = none ∧ beginMatch l = none) :
    ∀ fuel i, lines.length - i < fuel →
      processLines fn cid fuel lines i = some (.ok lines) := by
  intro fuel
  induction fuel with
  | zero =>
    intro i h
    omega
  | succ n ih =>
    intro i h
    unfold processLines
    by_cases hi : i < lines.length
    · have hmem : lines.getD i "" ∈ lines := getD_mem_of_lt lines i hi
      have himg : image_to_figure lines i = .ok (lines, i) := by
        unfold image_to_figure
        rw [if_pos hi, (hnm _ hmem).1]
      have hadm : create_admonition fn cid lines i = .ok (lines, i) := by
        unfold create_admonition
        rw [if_pos hi, (hnm _ hmem).2]
      rw [if_pos hi]
      simp only [himg, hadm]
      exact ih (i + 1) (by omega)
    · rw [if_neg hi]

/-- Claim C7 is false as stated: a full pass of the driver loop can emit a
line that itself matches the image pattern (here the caption of an image
link is itself an image link, and the caption is re-emitted as a bare line),
so feeding the first-pass output back through the converters is not a no-op. -/
theorem c7_second_pass_counterexample :
    processLines "f" 0 20 ["![![inner](res/a.b)](res/c.d)\n", "x\n"] 0 =
      some (.ok ["```\x7bfigure\x7d ../res/c.d\n", "---\n", "name: c\n", "---\n",
                 "![inner](res/a.b)\n", "```\n", "x\n"]) ∧
    processLines "f" 0 20
      ["```\x7bfigure\x7d ../res/c.d\n", "---\n", "name: c\n", "---\n",
       "![inner](res/a.b)\n", "```\n", "x\n"] 0 ≠
      some (.ok ["```\x7bfigure\x7d ../res/c.d\n", "---\n", "name: c\n", "---\n",
                 "![inner](res/a.b)\n", "```\n", "x\n"]) := by
  decide

/-- Claim C7 amended: the second pass is a no-op for every line sequence none
of whose lines matches the image pattern or the begin-delimiter pattern (the
typical shape of first-pass output, whose fences match neither); a full pass
of the driver loop returns such a sequence byte-identical.  The unrestricted
claim fails because a first pass can emit residual pattern lines, as the
counterexample shows. -/
theorem c7_no_residual_pattern_second_pass_noop (fn : String) (cid : Nat)
    (lines : List String) (fuel : Nat)
    (hnm : ∀ l ∈ lines, imageMatch l = none ∧ beginMatch l = none)
    (hfuel : lines.length < fuel) :
    processLines fn cid fuel lines 0 = some (.ok lines) :=
  processLines_no_match_fixpoint fn cid lines hnm fuel 0 (by omega)

/-- Witness for the amended C7 on a concrete already-transformed sequence. -/
theorem c7_no_residual_pattern_second_pass_noop_witness :
    processLines "f" 0 9
      ["```\x7bfigure\x7d ../res/c.d\n", "---\n", "name: c\n", "---\n",
       "cap\n", "```\n", "x\n"] 0 =
      some (.ok ["```\x7bfigure\x7d ../res/c.d\n", "---\n", "name: c\n", "---\n",
                 "cap\n", "```\n", "x\n"]) :=
  c7_no_residual_pattern_second_pass_noop "f" 0
    ["```\x7bfigure\x7d ../res/c.d\n", "---\n", "name: c\n", "---\n", "cap\n", "```\n", "x\n"]
    9 (by decide) (by decide)

/-! ### Symbolic facts about the image matcher, for claim C10 -/

/-- The lazy group stops exactly at the first occurrence of the literal when
the consumed part contains neither the literal nor a newline. -/
lemma lazyTo_append (c : Char) (E rest : List Char) (hc : c ∉ E) (hn : '\n' ∉ E) :
    lazyTo c (E ++ (c :: rest)) = some (E, rest) := by
  induction E with
  | nil =>
    simp only [List.nil_append]
    unfold lazyTo
    rw [if_pos rfl]
  | cons x xs ih =>
    simp only [List.mem_cons, not_or] at hc hn
    simp only [List.cons_append]
    unfold lazyTo
    rw [if_neg (fun h : x = c => hc.1 h.symm), if_neg (fun h : x = '\n' => hn.1 h.symm),
        ih hc.2 hn.2]
    rfl

/-- The lazy name/extension pair matches exactly at the intended `.` and `)`
when the name contains no `.` or newline and the extension no `)` or newline. -/
lemma imgNameExt_append (N E rest : List Char)
    (hN : '.' ∉ N) (hNn : '\n' ∉ N) (hE : ')' ∉ E) (hEn : '\n' ∉ E) :
    imgNameExt (N ++ ('.' :: (E ++ (')' :: rest)))) = some (N, E) := by
  induction N with
  | nil =>
    simp only [List.nil_append]
    unfold imgNameExt
    rw [if_pos rfl, lazyTo_append ')' E rest hE hEn]
  | cons x xs ih =>
    simp only [List.mem_cons, not_or] at hN hNn
    simp only [List.cons_append]
    unfold imgNameExt
    rw [if_neg (fun h : x = '.' => hN.1 h.symm), if_neg (fun h : x = '\n' => hNn.1 h.symm),
        ih hN.2 hNn.2]
    rfl

/-- Without a `]` no split point for the caption exists, so the whole
pattern fails: every longer caption candidate is a dead end. -/
lemma imgCap_none (L : List Char) (h : ']' ∉ L) : imgCap L = none := by
  induction L with
  | nil => rfl
  | cons x xs ih =>
    simp only [List.mem_cons, not_or] at h
    have hsplit : ¬(x = ']' ∧ xs.take 5 = ['(', 'r', 'e', 's', '/']) :=
      fun hand => h.1 hand.1.symm
    unfold imgCap
    by_cases hx : x = '\n'
    · rw [if_pos hx, if_neg hsplit]
    · rw [if_neg hx, ih h.2, if_neg hsplit]
      rfl

/-- One step of the greedy caption matcher when extending succeeds. -/
lemma imgCap_cons_extend (x : Char) (xs : List Char) (q : List Char × List Char × List Char)
    (hx : x ≠ '\n') (hok : imgCap xs = some q) :
    imgCap (x :: xs) = some (x :: q.1, q.2) := by
  unfold imgCap
  rw [if_neg hx, hok]
  rfl

/-- One step of the greedy caption matcher when every longer candidate fails
and the split point is available here. -/
lemma imgCap_cons_split (x : Char) (xs : List Char)
    (hx : x ≠ '\n') (hfail : imgCap xs = none)
    (hsp : x = ']' ∧ xs.take 5 = ['(', 'r', 'e', 's', '/']) :
    imgCap (x :: xs) = (imgNameExt (xs.drop 5)).map (fun q => (([] : List Char), q.1, q.2)) := by
  unfold imgCap
  rw [if_neg hx, hfail, if_pos hsp]
  rfl

/-- The greedy caption closes exactly at the intended `](res/` when no later
`]` exists, and the groups are the intended caption, name and extension. -/
lemma imgCap_append (C N E rest : List Char)
    (hC : '\n' ∉ C)
    (hN : '.' ∉ N) (hNn : '\n' ∉ N) (hNb : ']' ∉ N)
    (hE : ')' ∉ E) (hEn : '\n' ∉ E) (hEb : ']' ∉ E)
    (hR : ']' ∉ rest) :
    imgCap (C ++ (']' :: '(' :: 'r' :: 'e' :: 's' :: '/' ::
        (N ++ ('.' :: (E ++ (')' :: rest)))))) = some (C, N, E) := by
  induction C with
  | nil =>
    have htail : ']' ∉ ('(' :: 'r' :: 'e' :: 's' :: '/' ::
        (N ++ ('.' :: (E ++ (')' :: rest))))) := by
      intro hmem
      simp only [List.mem_cons, List.mem_append] at hmem
      rcases hmem with h | h | h | h | h | h | h | h | h | h
      · exact absurd h (by decide)
      · exact absurd h (by decide)
      · exact absurd h (by decide)
      · exact absurd h (by decide)
      · exact absurd h (by decide)
      · exact hNb h
      · exact absurd h (by decide)
      · exact hEb h
      · exact absurd h (by decide)
      · exact hR h
    simp only [List.nil_append]
    rw [imgCap_cons_split ']' _ (by decide) (imgCap_none _ htail) ⟨rfl, rfl⟩]
    rw [show ('(' :: 'r' :: 'e' :: 's' :: '/' ::
          (N ++ ('.' :: (E ++ (')' :: rest))))).drop 5
        = N ++ ('.' :: (E ++ (')' :: rest))) from rfl]
    rw [imgNameExt_append N E rest hN hNn hE hEn]
    rfl
  | cons x xs ih =>
    simp only [List.mem_cons, not_or] at hC
    simp only [List.cons_append]
    rw [imgCap_cons_extend x _ (xs, N, E) (fun h : x = '\n' => hC.1 h.symm) (ih hC.2)]

/-- The char-list contents of a line `![C](res/N.E)T` with trailing newline,
the decomposition claim C10 speaks about. -/
def imgLine (C N E T : List Char) : List Char :=
  '!' :: '[' :: (C ++ (']' :: '(' :: 'r' :: 'e' :: 's' :: '/' ::
    (N ++ ('.' :: (E ++ (')' :: (T ++ ['\n'])))))))

/-- Claim C10: the image regex is anchored only at the start of the line, so
a line beginning with `![C](res/N.E)` followed by trailing text `T` still
fires, with the same caption, name and extension groups as without the
trailing text; the emitted 6-line figure block is identical to the one
produced for the same line with `T` removed, so the trailing text is
silently discarded and appears nowhere in the block.  The side conditions
keep the decomposition canonical: `T` and the name contain no `]` (otherwise
the greedy caption group would close at a later `](res/`, shifting all
groups), the name contains no `.` or newline, the extension no `)`, `]` or
newline, and the caption no newline. -/
theorem c10_trailing_text_discarded (C N E T : List Char)
    (hC : '\n' ∉ C)
    (hN : '.' ∉ N) (hNn : '\n' ∉ N) (hNb : ']' ∉ N)
    (hE : ')' ∉ E) (hEn : '\n' ∉ E) (hEb : ']' ∉ E)
    (hTb : ']' ∉ T) :
    imageMatch (String.mk (imgLine C N E T)) = some (C.asString, N.asString, E.asString) ∧
    image_to_figure [String.mk (imgLine C N E T)] 0 =
      .ok (figBlock C.asString N.asString E.asString, 6) ∧
    image_to_figure [String.mk (imgLine C N E [])] 0 =
      .ok (figBlock C.asString N.asString E.asString, 6) := by
  have hcap : ∀ T' : List Char, ']' ∉ T' →
      imgCap (C ++ (']' :: '(' :: 'r' :: 'e' :: 's' :: '/' ::
        (N ++ ('.' :: (E ++ (')' :: (T' ++ ['\n']))))))) = some (C, N, E) := by
    intro T' hT'
    refine imgCap_append C N E (T' ++ ['\n']) hC hN hNn hNb hE hEn hEb ?_
    intro hm
    rcases List.mem_append.mp hm with h | h
    · exact hT' h
    · exact absurd h (by decide)
  have him : ∀ T' : List Char, ']' ∉ T' →
      imageMatch (String.mk (imgLine C N E T')) =
        some (C.asString, N.asString, E.asString) := by
    intro T' hT'
    unfold imageMatch
    rw [if_pos (show (String.mk (imgLine C N E T')).data.take 2 = ['!', '['] from rfl)]
    rw [show (String.mk (imgLine C N E T')).data.drop 2
        = C ++ (']' :: '(' :: 'r' :: 'e' :: 's' :: '/' ::
            (N ++ ('.' :: (E ++ (')' :: (T' ++ ['\n'])))))) from rfl]
    rw [hcap T' hT']
    rfl
  have hfig : ∀ T' : List Char, ']' ∉ T' →
      image_to_figure [String.mk (imgLine C N E T')] 0 =
        .ok (figBlock C.asString N.asString E.asString, 6) := by
    intro T' hT'
    unfold image_to_figure
    rw [if_pos (show (0 : Nat) < ([String.mk (imgLine C N E T')] : List String).length by simp)]
    rw [show ([String.mk (imgLine C N E T')] : List String).getD 0 ""
        = String.mk (imgLine C N E T') from rfl]
    rw [him T' hT']
    rfl
  exact ⟨him T hTb, hfig T hTb, hfig [] (by decide)⟩

/-- Witness for C10: the line `![c](res/a.b) trail\n` fires and produces the
same block as `![c](res/a.b)\n`; the trailing text ` trail` is discarded. -/
theorem c10_trailing_text_discarded_witness :
    imageMatch "![c](res/a.b) trail\n" = some ("c", "a", "b") ∧
    image_to_figure ["![c](res/a.b) trail\n"] 0 = .ok (figBlock "c" "a" "b", 6) ∧
    image_to_figure ["![c](res/a.b)\n"] 0 = .ok (figBlock "c" "a" "b", 6) :=
  c10_trailing_text_discarded ['c'] ['a'] ['b'] [' ', 't', 'r', 'a', 'i', 'l']
    (by decide) (by decide) (by decide) (by decide)
    (by decide) (by decide) (by decide) (by decide)
